import Mathlib

/-!
# Slide-button input driver (`drivers/input/misc/slide-button.c`)

A shallow embedding of the driver and theorems about it.

The driver's C functions become Lean functions of the same name.  Calls into
the kernel that have an effect are recorded, in program order, as a list of
`Call`s; calls into the kernel that return a value the driver branches on are
supplied by an environment (`Line` for the GPIO level reads of one handler
invocation, `Env` for the collaborators of `slide_button_probe`).

C `int` values are `Int` (the driver performs no arithmetic on them), C `bool`
is `Bool`, and a pointer is a `Nat` with `0` standing for `NULL`.
-/

set_option linter.unusedVariables false

namespace SlideButton

/-! ## Constants -/

/-- Source: `#define SLIDE_BUTTON_NODE "/dev/input/slider"`. -/
def SLIDE_BUTTON_NODE : String := "/dev/input/slider"

/-- Source: `#define SLIDE_BUTTON_NAME "slide_button"`. -/
def SLIDE_BUTTON_NAME : String := "slide_button"

/-- Source: `#define KEY_SLIDE_BUTTON_OFF 250`. -/
def KEY_SLIDE_BUTTON_OFF : Int := 250

/-- Source: `#define KEY_SLIDE_BUTTON_ON 251`. -/
def KEY_SLIDE_BUTTON_ON : Int := 251

/-- Value of `ENOMEM` in `errno-base.h` (the header is not part of the driver file). -/
def ENOMEM : Int := 12

/-- Value of `EIO` in `errno-base.h` (the header is not part of the driver file). -/
def EIO : Int := 5

/-- The `irqreturn_t` enumeration of `linux/irqreturn.h`. -/
inductive irqreturn_t
  | IRQ_NONE
  | IRQ_HANDLED
  | IRQ_WAKE_THREAD
  deriving DecidableEq, Repr

/-- Bus types an input device id can carry; the driver only uses `BUS_HOST`. -/
inductive BusType
  | unset
  | BUS_HOST
  deriving DecidableEq, Repr

/-- Event types of an input device; the driver only enables `EV_KEY`. -/
inductive EvType
  | EV_KEY
  deriving DecidableEq, Repr

/-! ## Data model -/

/-- The fields of `struct input_dev` that the driver writes before registration. -/
structure input_dev where
  phys : String
  name : String
  bustype : BusType
  evbit : List EvType
  keybit : List Int
  deriving DecidableEq, Repr

/-- A freshly allocated input device, as `devm_input_allocate_device` hands it out. -/
def input_dev.blank : input_dev :=
  { phys := "", name := "", bustype := BusType.unset, evbit := [], keybit := [] }

/-- The driver's bookkeeping structure `struct slide_button_desc`.
`input` is the `struct input_dev *` pointer, `0` being `NULL`. -/
structure slide_button_desc where
  gpio : Int
  irq : Int
  wakeup : Bool
  prev_state : Int
  debounce_interval : Int
  input : Nat
  deriving DecidableEq, Repr

/-- The descriptor as `devm_kzalloc` returns it: every field zero. -/
def slide_button_desc.zero : slide_button_desc :=
  { gpio := 0, irq := 0, wakeup := false, prev_state := 0, debounce_interval := 0, input := 0 }

/-- The effectful kernel calls the driver makes, with the arguments it passes. -/
inductive Call
  | input_report_key (dev : Nat) (code : Int) (value : Int)
  | input_sync (dev : Nat)
  | gpio_request (gpio : Int)
  | gpio_free (gpio : Int)
  | input_register_device (dev : Nat) (cfg : input_dev)
  | input_unregister_device (dev : Nat)
  | devm_request_threaded_irq (irq : Int)
  | free_irq (irq : Int)
  | device_init_wakeup (enable : Bool)
  | enable_irq_wake (irq : Int)
  | disable_irq_wake (irq : Int)
  deriving DecidableEq, Repr

/-- What `gpio_get_value_cansleep` returns during one handler invocation:
`line gpio k` is the value of the `k`-th read (counting from `0`) of `gpio`
made in that invocation.  The primitive returns `0` or `1` for a level and a
negative errno when the read fails. -/
abbrev Line := Int → Nat → Int

/-- The state threaded through one handler invocation: the sink calls made so
far and the number of level reads made so far. -/
structure HState where
  calls : List Call
  nread : Nat
  deriving DecidableEq, Repr

/-- Conversion of a C `bool` to `int`. -/
def bool_to_int (b : Bool) : Int := if b then 1 else 0

/-! ## The interrupt path -/

/-- Embedding of
```c
static bool slide_button_get_state(struct slide_button_desc *sb) {
    return !!gpio_get_value_cansleep(sb->gpio);
}
```
-/
def slide_button_get_state (line : Line) (sb : slide_button_desc) (h : HState) :
    Bool × HState :=
  (line sb.gpio h.nread != 0, { h with nread := h.nread + 1 })

/-- Embedding of `slide_button_report`.  The parameter `state` is not used by
the C function: the keycode comes from a fresh call of
`slide_button_get_state`. -/
def slide_button_report (line : Line) (sb : slide_button_desc) (state : Bool)
    (h : HState) : HState :=
  let r := slide_button_get_state line sb h
  let keycode := if r.1 then KEY_SLIDE_BUTTON_ON else KEY_SLIDE_BUTTON_OFF
  let h1 := r.2
  let h2 := { h1 with calls := h1.calls ++ [Call.input_report_key sb.input keycode 1] }
  let h3 := { h2 with calls := h2.calls ++ [Call.input_sync sb.input] }
  let h4 := { h3 with calls := h3.calls ++ [Call.input_report_key sb.input keycode 0] }
  { h4 with calls := h4.calls ++ [Call.input_sync sb.input] }

/-- Result of one invocation of the interrupt handler. -/
structure HandlerResult where
  ret : irqreturn_t
  sb : slide_button_desc
  calls : List Call
  nread : Nat
  deriving DecidableEq, Repr

/-- Embedding of `slide_button_irq_trigger_handler`.  `state != sb->prev_state`
compares the `bool` promoted to `int` with the `int` field. -/
def slide_button_irq_trigger_handler (line : Line) (sb : slide_button_desc) :
    HandlerResult :=
  let h0 : HState := { calls := [], nread := 0 }
  let r := slide_button_get_state line sb h0
  let state := r.1
  if bool_to_int state ≠ sb.prev_state then
    let h1 := slide_button_report line sb state r.2
    { ret := irqreturn_t.IRQ_HANDLED,
      sb := { sb with prev_state := bool_to_int state },
      calls := h1.calls, nread := h1.nread }
  else
    { ret := irqreturn_t.IRQ_HANDLED, sb := sb, calls := r.2.calls, nread := r.2.nread }

/-- A sequence of handler invocations, one per element of `lines`, each with
its own line behaviour; returns the final descriptor and all sink calls. -/
def run_handler : List Line → slide_button_desc → slide_button_desc × List Call
  | [], sb => (sb, [])
  | line :: rest, sb =>
    let r := slide_button_irq_trigger_handler line sb
    let t := run_handler rest r.sb
    (t.1, r.calls ++ t.2)

/-! ## Attach and detach -/

/-- The kernel collaborators of `slide_button_probe`: for each call whose
result the driver branches on or stores, the value it returns.
* `devm_kzalloc`: whether the allocation returns a non-`NULL` pointer;
* `of_property_read_bool`: the `slide-button,wakeup` property;
* `of_get_named_gpio_flags`: the GPIO number (negative errno on failure);
* `gpio_is_valid`: the kernel's validity test on a GPIO number (a header
  inline that is not part of the driver file);
* `gpio_request`: the return code for a GPIO number;
* `of_property_read_u32`: the return code for `debounce-interval` and the
  `u32` written through the out pointer when that code is `0`;
* `devm_input_allocate_device`: the pointer returned, `0` being `NULL`;
* `input_register_device`: the return code for a device pointer;
* `gpio_to_irq`: the interrupt number for a GPIO (negative errno on failure);
* `devm_request_threaded_irq`: the return code for an interrupt number. -/
structure Env where
  devm_kzalloc : Bool
  of_property_read_bool : Bool
  of_get_named_gpio_flags : Int
  gpio_is_valid : Int → Bool
  gpio_request : Int → Int
  of_property_read_u32 : Int × Nat
  devm_input_allocate_device : Nat
  input_register_device : Nat → Int
  gpio_to_irq : Int → Int
  devm_request_threaded_irq : Int → Int

/-- The `int` that an `int` object holds after a `u32` was stored into it
through a `u32 *` (two's complement, 32 bits). -/
def u32_as_int (v : Nat) : Int :=
  if v % 2 ^ 32 < 2 ^ 31 then ((v % 2 ^ 32 : Nat) : Int)
  else ((v % 2 ^ 32 : Nat) : Int) - 2 ^ 32

/-- Result of `slide_button_parse_dt`: return value, descriptor, calls made. -/
structure ParseResult where
  ret : Int
  sb : slide_button_desc
  calls : List Call
  deriving DecidableEq, Repr

/-- Embedding of `slide_button_parse_dt`.  `of_property_read_u32` stores the
value through its out pointer only when it returns `0`; the driver then
overwrites the field with `15` when the return code is not `0`. -/
def slide_button_parse_dt (e : Env) (sb : slide_button_desc) : ParseResult :=
  let ret : Int := -1
  let sb := { sb with wakeup := e.of_property_read_bool }
  let sb := { sb with gpio := e.of_get_named_gpio_flags }
  let rc : Int × List Call :=
    if e.gpio_is_valid sb.gpio then
      (e.gpio_request sb.gpio, [Call.gpio_request sb.gpio])
    else (ret, [])
  let r := e.of_property_read_u32
  let sb := if r.1 = 0 then { sb with debounce_interval := u32_as_int r.2 } else sb
  let sb := if r.1 ≠ 0 then { sb with debounce_interval := 15 } else sb
  { ret := rc.1, sb := sb, calls := rc.2 }

/-- Result of `slide_button_probe`: return value, the driver data set with
`dev_set_drvdata` (`none` when the allocation failed) in its final state, and
the calls made. -/
structure ProbeResult where
  ret : Int
  drvdata : Option slide_button_desc
  calls : List Call
  deriving DecidableEq, Repr

/-- The code at label `err_free_dev` of `slide_button_probe`. -/
def err_free_dev (sb : slide_button_desc) (ret : Int) (calls : List Call) : ProbeResult :=
  { ret := ret, drvdata := some sb,
    calls := calls ++ [Call.input_unregister_device sb.input] }

/-- The code at label `err_free_irq` of `slide_button_probe`, which falls
through into `err_free_dev`. -/
def err_free_irq (sb : slide_button_desc) (ret : Int) (calls : List Call) : ProbeResult :=
  err_free_dev sb ret
    (calls ++ [Call.disable_irq_wake sb.irq, Call.free_irq sb.irq])

/-- The input device after the assignments and `set_bit` calls that precede
`input_register_device` in `slide_button_probe`. -/
def probe_input_dev : input_dev :=
  let d := input_dev.blank
  let d := { d with phys := SLIDE_BUTTON_NODE }
  let d := { d with name := SLIDE_BUTTON_NAME }
  let d := { d with bustype := BusType.BUS_HOST }
  let d := { d with evbit := d.evbit ++ [EvType.EV_KEY] }
  let d := { d with keybit := d.keybit ++ [KEY_SLIDE_BUTTON_OFF] }
  { d with keybit := d.keybit ++ [KEY_SLIDE_BUTTON_ON] }

/-- Embedding of `slide_button_probe`. -/
def slide_button_probe (e : Env) : ProbeResult :=
  if e.devm_kzalloc = false then
    { ret := - ENOMEM, drvdata := none, calls := [] }
  else
    let p := slide_button_parse_dt e slide_button_desc.zero
    if p.ret < 0 then
      { ret := - EIO, drvdata := some p.sb, calls := p.calls }
    else
      let sb := { p.sb with input := e.devm_input_allocate_device }
      if sb.input = 0 then
        { ret := - ENOMEM, drvdata := some sb, calls := p.calls }
      else
        let ret := e.input_register_device sb.input
        let calls := p.calls ++ [Call.input_register_device sb.input probe_input_dev]
        if ret ≠ 0 then
          err_free_dev sb ret calls
        else
          let sb := { sb with irq := e.gpio_to_irq sb.gpio }
          if sb.irq < 0 then
            err_free_dev sb sb.irq calls
          else
            let ret := e.devm_request_threaded_irq sb.irq
            let calls := calls ++ [Call.devm_request_threaded_irq sb.irq]
            if ret ≠ 0 then
              err_free_irq sb ret calls
            else
              { ret := 0, drvdata := some sb,
                calls := calls ++
                  [Call.device_init_wakeup sb.wakeup, Call.enable_irq_wake sb.irq] }

/-- Result of `slide_button_remove`: return value and the calls made. -/
structure RemoveResult where
  ret : Int
  calls : List Call
  deriving DecidableEq, Repr

/-- Embedding of `slide_button_remove`; `drvdata` is what `dev_get_drvdata`
returns, `none` being `NULL`. -/
def slide_button_remove (drvdata : Option slide_button_desc) : RemoveResult :=
  match drvdata with
  | none => { ret := 0, calls := [] }
  | some sb =>
    if sb.irq = 0 then { ret := 0, calls := [] }
    else
      { ret := 0,
        calls := [Call.disable_irq_wake sb.irq, Call.device_init_wakeup false,
                  Call.gpio_free sb.gpio] }

/-! ## The collaborators' state -/

/-- What the power-management collaborator holds for the device: whether the
device is marked wake-capable and which interrupts are armed as wake sources. -/
structure PMState where
  marked : Bool
  armed : Int → Bool

/-- The power-management state of a device on which nothing was ever set up. -/
def PMState.fresh : PMState := { marked := false, armed := fun _ => false }

/-- Modelled from the spec: the effect of one call on the power-management
collaborator, whose code is not part of the driver file.  The spec gives it
the operations "mark device as a wake source" / "unmark"
(`device_init_wakeup`) and "arm interrupt for wake" / "disarm"
(`enable_irq_wake` / `disable_irq_wake`); every other call leaves it alone. -/
def pm_step (s : PMState) : Call → PMState
  | Call.device_init_wakeup b => { s with marked := b }
  | Call.enable_irq_wake i => { s with armed := fun j => if j = i then true else s.armed j }
  | Call.disable_irq_wake i => { s with armed := fun j => if j = i then false else s.armed j }
  | _ => s

/-- The power-management state after a list of calls, made in order. -/
def pm_after (s : PMState) (calls : List Call) : PMState :=
  calls.foldl pm_step s

/-- Modelled from the spec: whether the output-event channel `dev` is
registered with the consumer after `calls`, given the return code `reg` that
`input_register_device` produces for a device: registration takes effect when
the return code is `0`, and `input_unregister_device` removes it. -/
def channel_registered (reg : Nat → Int) (dev : Nat) : List Call → Bool → Bool
  | [], r => r
  | Call.input_register_device d _ :: rest, r =>
    channel_registered reg dev rest (if d = dev ∧ reg d = 0 then true else r)
  | Call.input_unregister_device d :: rest, r =>
    channel_registered reg dev rest (if d = dev then false else r)
  | _ :: rest, r => channel_registered reg dev rest r

/-! ## Concrete inputs -/

/-- A descriptor as a successful attach leaves it: GPIO 7, interrupt 42,
input device pointer 1, not wake-capable, committed state Off. -/
def sample_desc : slide_button_desc :=
  { gpio := 7, irq := 42, wakeup := false, prev_state := 0, debounce_interval := 15,
    input := 1 }

/-- The descriptor `sample_desc` with committed state On. -/
def sample_desc_on : slide_button_desc := { sample_desc with prev_state := 1 }

/-- A line that reads `1` at every read. -/
def line_high : Line := fun _ _ => 1

/-- A line that reads `0` at every read. -/
def line_low : Line := fun _ _ => 0

/-- A line that reads `1` at the first read of the invocation and `0` afterwards. -/
def line_falling : Line := fun _ k => if k = 0 then 1 else 0

/-- A line every read of which fails with `-EIO`. -/
def line_failing : Line := fun _ _ => -5

/-- An environment in which every step of attach succeeds: GPIO 7 is valid
and can be requested, there is no `debounce-interval` property
(`of_property_read_u32` returns `-EINVAL`), the input device is allocated at
pointer 1 and registers, the interrupt is 42 and can be requested; the
`slide-button,wakeup` property is absent. -/
def sample_env : Env :=
  { devm_kzalloc := true
    of_property_read_bool := false
    of_get_named_gpio_flags := 7
    gpio_is_valid := fun g => decide (0 ≤ g)
    gpio_request := fun _ => 0
    of_property_read_u32 := (-22, 0)
    devm_input_allocate_device := 1
    input_register_device := fun _ => 0
    gpio_to_irq := fun _ => 42
    devm_request_threaded_irq := fun _ => 0 }

/-- The environment `sample_env` with the `slide-button,wakeup` property present. -/
def sample_env_wakeup : Env := { sample_env with of_property_read_bool := true }

/-- The environment `sample_env` except that `input_register_device` fails
with `-ENOMEM`. -/
def env_register_fails : Env := { sample_env with input_register_device := fun _ => -12 }

/-- The environment `sample_env` except that `gpio_to_irq` fails with `-EINVAL`. -/
def env_to_irq_fails : Env := { sample_env with gpio_to_irq := fun _ => -22 }

/-- The environment `sample_env` except that `devm_request_threaded_irq` fails
with `-EBUSY`. -/
def env_request_irq_fails : Env :=
  { sample_env with devm_request_threaded_irq := fun _ => -16 }

/-- The environment `sample_env` except that `debounce-interval` is present
with value 40. -/
def env_debounce_40 : Env := { sample_env with of_property_read_u32 := (0, 40) }

end SlideButton

/-! ## Theorems: the interrupt path -/

namespace SlideButton

/-- Every handler invocation reads the line at least once. -/
theorem handler_nread_pos (line : Line) (sb : slide_button_desc) :
    0 < (slide_button_irq_trigger_handler line sb).nread := by
  unfold slide_button_irq_trigger_handler
  simp only [slide_button_get_state, slide_button_report]
  split <;> simp

/-- When the first read agrees with `prev_state` the handler does nothing
else: one read, no call, descriptor untouched. -/
theorem handler_first_read_eq (line : Line) (sb : slide_button_desc)
    (h : bool_to_int (line sb.gpio 0 != 0) = sb.prev_state) :
    slide_button_irq_trigger_handler line sb =
      { ret := irqreturn_t.IRQ_HANDLED, sb := sb, calls := [], nread := 1 } := by
  simp [slide_button_irq_trigger_handler, slide_button_get_state, h]

/-- When the first read differs from `prev_state` the handler reads the line
a second time, reports the keycode of that second read, and commits the level
of the first read. -/
theorem handler_first_read_ne (line : Line) (sb : slide_button_desc)
    (h : bool_to_int (line sb.gpio 0 != 0) ≠ sb.prev_state) :
    slide_button_irq_trigger_handler line sb =
      { ret := irqreturn_t.IRQ_HANDLED,
        sb := { sb with prev_state := bool_to_int (line sb.gpio 0 != 0) },
        calls :=
          [Call.input_report_key sb.input
             (if (line sb.gpio 1 != 0) = true then KEY_SLIDE_BUTTON_ON else KEY_SLIDE_BUTTON_OFF) 1,
           Call.input_sync sb.input,
           Call.input_report_key sb.input
             (if (line sb.gpio 1 != 0) = true then KEY_SLIDE_BUTTON_ON else KEY_SLIDE_BUTTON_OFF) 0,
           Call.input_sync sb.input],
        nread := 2 } := by
  simp [slide_button_irq_trigger_handler, slide_button_get_state, slide_button_report, h]

/-- The handler returns `IRQ_HANDLED` in every invocation. -/
theorem handler_returns_handled (line : Line) (sb : slide_button_desc) :
    (slide_button_irq_trigger_handler line sb).ret = irqreturn_t.IRQ_HANDLED := by
  by_cases h : bool_to_int (line sb.gpio 0 != 0) = sb.prev_state
  · rw [handler_first_read_eq line sb h]
  · rw [handler_first_read_ne line sb h]

/-- Distinct levels convert to distinct `int`s. -/
theorem bool_to_int_injective (a b : Bool) (h : bool_to_int a = bool_to_int b) : a = b := by
  cases a <;> cases b <;> simp [bool_to_int] at h ⊢

/-- C1: for a committed state `p` and a handler invocation during which the
line reads the level `s` (every read made in the invocation returns a value of
level `s`) with `s ≠ p`, the calls made are exactly press(key s), sync,
release(key s), sync, in this order, where key On = 251 and key Off = 250; no
other call is made; afterwards `prev_state` is `s` and no other field of the
descriptor has changed. -/
theorem handler_transition_emits_pair (line : Line) (sb : slide_button_desc) (p s : Bool)
    (hp : sb.prev_state = bool_to_int p) (hs : s ≠ p)
    (hline : ∀ k, k < (slide_button_irq_trigger_handler line sb).nread →
      (line sb.gpio k != 0) = s) :
    (slide_button_irq_trigger_handler line sb).calls =
      [Call.input_report_key sb.input
         (if s = true then KEY_SLIDE_BUTTON_ON else KEY_SLIDE_BUTTON_OFF) 1,
       Call.input_sync sb.input,
       Call.input_report_key sb.input
         (if s = true then KEY_SLIDE_BUTTON_ON else KEY_SLIDE_BUTTON_OFF) 0,
       Call.input_sync sb.input] ∧
    (slide_button_irq_trigger_handler line sb).sb = { sb with prev_state := bool_to_int s } ∧
    (slide_button_irq_trigger_handler line sb).sb.prev_state = bool_to_int s ∧
    KEY_SLIDE_BUTTON_ON = 251 ∧ KEY_SLIDE_BUTTON_OFF = 250 := by
  have h0 : (line sb.gpio 0 != 0) = s := hline 0 (handler_nread_pos line sb)
  have hne : bool_to_int (line sb.gpio 0 != 0) ≠ sb.prev_state := by
    rw [h0, hp]
    intro h
    exact hs (bool_to_int_injective s p h)
  have hr := handler_first_read_ne line sb hne
  have h1 : (line sb.gpio 1 != 0) = s := hline 1 (by rw [hr]; exact Nat.lt_succ_self 1)
  rw [hr]
  simp only [h0, h1]
  refine ⟨trivial, trivial, trivial, rfl, rfl⟩

/-- Witness for C1: committed state Off, line high throughout the invocation:
the `KEY_SLIDE_BUTTON_ON` pair is emitted and On is committed. -/
theorem handler_transition_emits_pair_witness :
    (slide_button_irq_trigger_handler line_high sample_desc).calls =
      [Call.input_report_key 1 251 1, Call.input_sync 1,
       Call.input_report_key 1 251 0, Call.input_sync 1] ∧
    (slide_button_irq_trigger_handler line_high sample_desc).sb.prev_state = 1 := by
  have h := handler_transition_emits_pair line_high sample_desc false true rfl (by decide)
    (fun k _ => rfl)
  exact ⟨h.1, h.2.2.1⟩

/-- C2: for a committed state `p` and any finite sequence of handler
invocations (of any length, the empty one included) in each of which the
level read equals `p`, no call at all is made and the descriptor, `prev_state`
included, is unchanged after the whole sequence. -/
theorem run_handler_same_level_silent (lines : List Line) (sb : slide_button_desc) (p : Bool)
    (hp : sb.prev_state = bool_to_int p)
    (hlines : ∀ line ∈ lines, (line sb.gpio 0 != 0) = p) :
    (run_handler lines sb).2 = [] ∧ (run_handler lines sb).1 = sb ∧
    (run_handler lines sb).1.prev_state = bool_to_int p := by
  induction lines with
  | nil => exact ⟨rfl, rfl, hp⟩
  | cons line rest ih =>
    have hl : (line sb.gpio 0 != 0) = p := hlines line (List.mem_cons_self line rest)
    have hr := handler_first_read_eq line sb (by rw [hl, hp])
    have ih2 := ih (fun l hmem => hlines l (List.mem_cons_of_mem line hmem))
    simp only [run_handler, hr, List.nil_append]
    exact ih2

/-- Witness for C2: three invocations on a low line with committed state Off. -/
theorem run_handler_same_level_silent_witness :
    (run_handler [line_low, line_low, line_low] sample_desc).2 = [] ∧
    (run_handler [line_low, line_low, line_low] sample_desc).1 = sample_desc ∧
    (run_handler [line_low, line_low, line_low] sample_desc).1.prev_state = 0 :=
  run_handler_same_level_silent [line_low, line_low, line_low] sample_desc false rfl
    (by intro line hmem; simp at hmem; subst hmem; rfl)

/-- C3 (the code at a failing input): committed state Off, the line reads `1`
at the handler's read and `0` when `slide_button_report` reads it again.  The
invocation reads the line twice, emits the `KEY_SLIDE_BUTTON_OFF` (250) pair,
and commits On (`prev_state = 1`): the emitted keycode is not the one mapped
from the committed level. -/
theorem handler_keycode_from_second_read :
    (slide_button_irq_trigger_handler line_falling sample_desc).nread = 2 ∧
    (slide_button_irq_trigger_handler line_falling sample_desc).calls =
      [Call.input_report_key 1 KEY_SLIDE_BUTTON_OFF 1, Call.input_sync 1,
       Call.input_report_key 1 KEY_SLIDE_BUTTON_OFF 0, Call.input_sync 1] ∧
    (slide_button_irq_trigger_handler line_falling sample_desc).sb.prev_state = 1 ∧
    KEY_SLIDE_BUTTON_OFF ≠ KEY_SLIDE_BUTTON_ON := by
  decide

/-- C4 (counterexample): committed state Off and a line whose every read
fails with `-5`: the invocation is not a no-op, it emits the
`KEY_SLIDE_BUTTON_ON` pair and changes `prev_state` from `0` to `1`. -/
theorem read_failure_not_noop :
    line_failing sample_desc.gpio 0 < 0 ∧ sample_desc.prev_state = 0 ∧
    (slide_button_irq_trigger_handler line_failing sample_desc).calls =
      [Call.input_report_key 1 KEY_SLIDE_BUTTON_ON 1, Call.input_sync 1,
       Call.input_report_key 1 KEY_SLIDE_BUTTON_ON 0, Call.input_sync 1] ∧
    (slide_button_irq_trigger_handler line_failing sample_desc).calls ≠ [] ∧
    (slide_button_irq_trigger_handler line_failing sample_desc).sb.prev_state = 1 ∧
    (slide_button_irq_trigger_handler line_failing sample_desc).sb.prev_state ≠
      sample_desc.prev_state := by
  decide

/-- C4 (amended): a handler invocation in which every level read fails
(`gpio_get_value_cansleep` returns a negative value) is handled as if the line
read On.  With committed state On it is a no-op: no call, descriptor
unchanged.  With committed state Off it emits the `KEY_SLIDE_BUTTON_ON` pair
and commits On.  In both cases the handler returns `IRQ_HANDLED`. -/
theorem read_failure_reads_as_on (line : Line) (sb : slide_button_desc)
    (hfail : ∀ k, k < (slide_button_irq_trigger_handler line sb).nread →
      line sb.gpio k < 0) :
    (slide_button_irq_trigger_handler line sb).ret = irqreturn_t.IRQ_HANDLED ∧
    (sb.prev_state = 1 →
      (slide_button_irq_trigger_handler line sb).calls = [] ∧
      (slide_button_irq_trigger_handler line sb).sb = sb) ∧
    (sb.prev_state = 0 →
      (slide_button_irq_trigger_handler line sb).calls =
        [Call.input_report_key sb.input KEY_SLIDE_BUTTON_ON 1, Call.input_sync sb.input,
         Call.input_report_key sb.input KEY_SLIDE_BUTTON_ON 0, Call.input_sync sb.input] ∧
      (slide_button_irq_trigger_handler line sb).sb = { sb with prev_state := 1 }) := by
  have h0 : line sb.gpio 0 < 0 := hfail 0 (handler_nread_pos line sb)
  have hb0 : (line sb.gpio 0 != 0) = true := by
    simp only [bne_iff_ne, ne_eq]
    omega
  refine ⟨?_, ?_, ?_⟩
  · exact handler_returns_handled line sb
  · intro hp
    have hr := handler_first_read_eq line sb (by rw [hb0, hp]; rfl)
    rw [hr]
    exact ⟨rfl, rfl⟩
  · intro hp
    have hne : bool_to_int (line sb.gpio 0 != 0) ≠ sb.prev_state := by
      rw [hb0, hp]; decide
    have hr := handler_first_read_ne line sb hne
    have h1 : line sb.gpio 1 < 0 := hfail 1 (by rw [hr]; exact Nat.lt_succ_self 1)
    have hb1 : (line sb.gpio 1 != 0) = true := by
      simp only [bne_iff_ne, ne_eq]
      omega
    rw [hr]
    simp only [hb0, hb1]
    exact ⟨rfl, rfl⟩

/-- Witness for C4 (amended): committed state On and a line whose every read
fails: no call is made and the descriptor is unchanged. -/
theorem read_failure_reads_as_on_witness :
    (slide_button_irq_trigger_handler line_failing sample_desc_on).ret =
      irqreturn_t.IRQ_HANDLED ∧
    (slide_button_irq_trigger_handler line_failing sample_desc_on).calls = [] ∧
    (slide_button_irq_trigger_handler line_failing sample_desc_on).sb = sample_desc_on := by
  have h := read_failure_reads_as_on line_failing sample_desc_on
    (fun k _ => by show (-5 : Int) < 0; decide)
  exact ⟨h.1, h.2.1 rfl⟩

/-! ## Theorems: attach and detach -/


/-- The result of `slide_button_parse_dt`, field by field. -/
theorem parse_dt_eq (e : Env) (sb : slide_button_desc) :
    slide_button_parse_dt e sb =
      { ret := if e.gpio_is_valid e.of_get_named_gpio_flags = true
          then e.gpio_request e.of_get_named_gpio_flags else -1,
        sb :=
          { gpio := e.of_get_named_gpio_flags,
            irq := sb.irq,
            wakeup := e.of_property_read_bool,
            prev_state := sb.prev_state,
            debounce_interval :=
              if e.of_property_read_u32.1 ≠ 0 then 15
              else u32_as_int e.of_property_read_u32.2,
            input := sb.input },
        calls := if e.gpio_is_valid e.of_get_named_gpio_flags = true
          then [Call.gpio_request e.of_get_named_gpio_flags] else [] } := by
  unfold slide_button_parse_dt
  by_cases hv : e.gpio_is_valid e.of_get_named_gpio_flags = true <;>
    by_cases hr : e.of_property_read_u32.1 = 0 <;> simp [hv, hr]

/-- A successful attach, in terms of what the collaborators returned: every
step succeeded, and the descriptor and the calls are the ones given. -/
theorem probe_success (e : Env) (h : (slide_button_probe e).ret = 0) :
    e.devm_kzalloc = true ∧
    e.gpio_is_valid e.of_get_named_gpio_flags = true ∧
    0 ≤ e.gpio_request e.of_get_named_gpio_flags ∧
    e.devm_input_allocate_device ≠ 0 ∧
    e.input_register_device e.devm_input_allocate_device = 0 ∧
    0 ≤ e.gpio_to_irq e.of_get_named_gpio_flags ∧
    e.devm_request_threaded_irq (e.gpio_to_irq e.of_get_named_gpio_flags) = 0 ∧
    slide_button_probe e =
      { ret := 0,
        drvdata := some
          { gpio := e.of_get_named_gpio_flags,
            irq := e.gpio_to_irq e.of_get_named_gpio_flags,
            wakeup := e.of_property_read_bool,
            prev_state := 0,
            debounce_interval :=
              if e.of_property_read_u32.1 ≠ 0 then 15
              else u32_as_int e.of_property_read_u32.2,
            input := e.devm_input_allocate_device },
        calls :=
          [Call.gpio_request e.of_get_named_gpio_flags,
           Call.input_register_device e.devm_input_allocate_device probe_input_dev,
           Call.devm_request_threaded_irq (e.gpio_to_irq e.of_get_named_gpio_flags),
           Call.device_init_wakeup e.of_property_read_bool,
           Call.enable_irq_wake (e.gpio_to_irq e.of_get_named_gpio_flags)] } := by
  unfold slide_button_probe at h ⊢
  rw [parse_dt_eq] at h ⊢
  simp only [slide_button_desc.zero, err_free_dev, err_free_irq] at h ⊢
  by_cases hk : e.devm_kzalloc = false
  · simp [hk, ENOMEM] at h
  · by_cases hv : e.gpio_is_valid e.of_get_named_gpio_flags = true
    · simp only [hk, hv, if_true, if_false] at h ⊢
      by_cases hr : e.gpio_request e.of_get_named_gpio_flags < 0
      · simp [hr, EIO] at h
      · by_cases ha : e.devm_input_allocate_device = 0
        · simp [hr, ha, ENOMEM] at h
        · by_cases hreg : e.input_register_device e.devm_input_allocate_device = 0
          · by_cases hirq : e.gpio_to_irq e.of_get_named_gpio_flags < 0
            · simp [hr, ha, hreg, hirq] at h
              omega
            · by_cases hq :
                e.devm_request_threaded_irq (e.gpio_to_irq e.of_get_named_gpio_flags) = 0
              · simp [hr, ha, hreg, hirq, hq]
                refine ⟨by omega, by omega⟩
              · simp [hr, ha, hreg, hirq, hq] at h
          · simp [hr, ha, hreg] at h
    · simp [hk, hv, EIO] at h

/-- The return value of `slide_button_parse_dt` does not depend on what
`of_property_read_u32` returns. -/
theorem parse_dt_ret_indep (e : Env) (sb : slide_button_desc) (r : Int × Nat) :
    (slide_button_parse_dt { e with of_property_read_u32 := r } sb).ret =
      (slide_button_parse_dt e sb).ret := by
  rw [parse_dt_eq, parse_dt_eq]

/-- The calls made by `slide_button_parse_dt` do not depend on what
`of_property_read_u32` returns. -/
theorem parse_dt_calls_indep (e : Env) (sb : slide_button_desc) (r : Int × Nat) :
    (slide_button_parse_dt { e with of_property_read_u32 := r } sb).calls =
      (slide_button_parse_dt e sb).calls := by
  rw [parse_dt_eq, parse_dt_eq]

/-- The return value of `slide_button_probe` as a function of what the
collaborators return. -/
theorem probe_ret_eq (e : Env) :
    (slide_button_probe e).ret =
      if e.devm_kzalloc = false then - ENOMEM
      else if (if e.gpio_is_valid e.of_get_named_gpio_flags = true
          then e.gpio_request e.of_get_named_gpio_flags else -1) < 0 then - EIO
      else if e.devm_input_allocate_device = 0 then - ENOMEM
      else if e.input_register_device e.devm_input_allocate_device ≠ 0 then
        e.input_register_device e.devm_input_allocate_device
      else if e.gpio_to_irq e.of_get_named_gpio_flags < 0 then
        e.gpio_to_irq e.of_get_named_gpio_flags
      else if e.devm_request_threaded_irq (e.gpio_to_irq e.of_get_named_gpio_flags) ≠ 0 then
        e.devm_request_threaded_irq (e.gpio_to_irq e.of_get_named_gpio_flags)
      else 0 := by
  unfold slide_button_probe
  rw [parse_dt_eq]
  simp only [slide_button_desc.zero, err_free_dev, err_free_irq, apply_ite ProbeResult.ret]

/-- The return value of `slide_button_probe` does not depend on what
`of_property_read_u32` returns. -/
theorem probe_ret_indep (e : Env) (r : Int × Nat) :
    (slide_button_probe { e with of_property_read_u32 := r }).ret =
      (slide_button_probe e).ret := by
  rw [probe_ret_eq, probe_ret_eq]

/-- No call of `slide_button_probe` is a `gpio_free`, whatever the
collaborators return. -/
theorem probe_never_frees_gpio (e : Env) (g : Int) :
    Call.gpio_free g ∉ (slide_button_probe e).calls := by
  unfold slide_button_probe
  rw [parse_dt_eq]
  simp only [slide_button_desc.zero, err_free_dev, err_free_irq]
  simp only [apply_ite ProbeResult.calls]
  split_ifs <;> simp

/-- C5 (the code at failing inputs): in each of the three environments the
line is acquired (`gpio_request` is called on GPIO 7 and returns `0`) and
attach then fails - at `input_register_device`, at `gpio_to_irq`, at
`devm_request_threaded_irq` - and in none of them is `gpio_free` called before
attach returns its error. -/
theorem probe_failure_keeps_line :
    (env_register_fails.gpio_request 7 = 0 ∧
      (slide_button_probe env_register_fails).ret = -12 ∧
      (slide_button_probe env_register_fails).calls =
        [Call.gpio_request 7, Call.input_register_device 1 probe_input_dev,
         Call.input_unregister_device 1] ∧
      Call.gpio_free 7 ∉ (slide_button_probe env_register_fails).calls) ∧
    (env_to_irq_fails.gpio_request 7 = 0 ∧
      (slide_button_probe env_to_irq_fails).ret = -22 ∧
      (slide_button_probe env_to_irq_fails).calls =
        [Call.gpio_request 7, Call.input_register_device 1 probe_input_dev,
         Call.input_unregister_device 1] ∧
      Call.gpio_free 7 ∉ (slide_button_probe env_to_irq_fails).calls) ∧
    (env_request_irq_fails.gpio_request 7 = 0 ∧
      (slide_button_probe env_request_irq_fails).ret = -16 ∧
      Call.gpio_request 7 ∈ (slide_button_probe env_request_irq_fails).calls ∧
      Call.gpio_free 7 ∉ (slide_button_probe env_request_irq_fails).calls) := by
  refine ⟨⟨rfl, rfl, rfl, ?_⟩, ⟨rfl, rfl, rfl, ?_⟩, ⟨rfl, rfl, ?_, ?_⟩⟩
  · exact probe_never_frees_gpio _ _
  · exact probe_never_frees_gpio _ _
  · exact List.mem_cons_self _ _
  · exact probe_never_frees_gpio _ _

/-- C6 (the code at a failing input): every step up to interrupt resolution
succeeds and `devm_request_threaded_irq` returns `-16`.  Attach returns `-16`
after calling `disable_irq_wake(42)` and `free_irq(42)` and then
`input_unregister_device`, although the interrupt was never requested
successfully and `enable_irq_wake` was never called. -/
theorem probe_irq_failure_undoes_unmade_steps :
    env_request_irq_fails.devm_request_threaded_irq 42 = -16 ∧
    (slide_button_probe env_request_irq_fails).ret = -16 ∧
    (slide_button_probe env_request_irq_fails).calls =
      [Call.gpio_request 7, Call.input_register_device 1 probe_input_dev,
       Call.devm_request_threaded_irq 42, Call.disable_irq_wake 42, Call.free_irq 42,
       Call.input_unregister_device 1] ∧
    Call.enable_irq_wake 42 ∉ (slide_button_probe env_request_irq_fails).calls := by
  refine ⟨rfl, rfl, rfl, ?_⟩
  decide

/-- C7 (counterexample): with the `slide-button,wakeup` property absent
(`wakeCapable = false`) attach succeeds, calls `device_init_wakeup(false)`,
and still calls `enable_irq_wake(42)`: the interrupt ends armed as a wake
source. -/
theorem probe_arms_wake_when_not_wake_capable :
    sample_env.of_property_read_bool = false ∧
    (slide_button_probe sample_env).ret = 0 ∧
    (slide_button_probe sample_env).calls =
      [Call.gpio_request 7, Call.input_register_device 1 probe_input_dev,
       Call.devm_request_threaded_irq 42, Call.device_init_wakeup false,
       Call.enable_irq_wake 42] ∧
    (pm_after PMState.fresh (slide_button_probe sample_env).calls).marked = false ∧
    (pm_after PMState.fresh (slide_button_probe sample_env).calls).armed 42 = true := by
  refine ⟨rfl, rfl, rfl, rfl, rfl⟩

/-- C7 (amended): for every successful attach, `device_init_wakeup` is called
once, with `sb->wakeup` (the `slide-button,wakeup` property), so the device
ends marked wake-capable exactly when `wakeCapable` is true; and
`enable_irq_wake(sb->irq)` is called once whatever `wakeCapable` is, so the
interrupt ends armed as a wake source in both cases. -/
theorem probe_success_wake_configuration (e : Env) (h : (slide_button_probe e).ret = 0) :
    ∃ sb, (slide_button_probe e).drvdata = some sb ∧
      sb.wakeup = e.of_property_read_bool ∧
      (slide_button_probe e).calls =
        [Call.gpio_request sb.gpio, Call.input_register_device sb.input probe_input_dev,
         Call.devm_request_threaded_irq sb.irq, Call.device_init_wakeup sb.wakeup,
         Call.enable_irq_wake sb.irq] ∧
      ∀ pm : PMState,
        (pm_after pm (slide_button_probe e).calls).marked = sb.wakeup ∧
        (pm_after pm (slide_button_probe e).calls).armed sb.irq = true := by
  have hs := (probe_success e h).2.2.2.2.2.2.2
  rw [hs]
  refine ⟨_, rfl, rfl, rfl, ?_⟩
  intro pm
  simp [pm_after, pm_step]

/-- Witness for C7 (amended): attach in an environment with the wakeup
property present. -/
theorem probe_success_wake_configuration_witness :
    ∃ sb, (slide_button_probe sample_env_wakeup).drvdata = some sb ∧
      sb.wakeup = sample_env_wakeup.of_property_read_bool ∧
      (slide_button_probe sample_env_wakeup).calls =
        [Call.gpio_request sb.gpio, Call.input_register_device sb.input probe_input_dev,
         Call.devm_request_threaded_irq sb.irq, Call.device_init_wakeup sb.wakeup,
         Call.enable_irq_wake sb.irq] ∧
      ∀ pm : PMState,
        (pm_after pm (slide_button_probe sample_env_wakeup).calls).marked = sb.wakeup ∧
        (pm_after pm (slide_button_probe sample_env_wakeup).calls).armed sb.irq = true :=
  probe_success_wake_configuration sample_env_wakeup rfl

/-- C8: detach returns `0` in every case.  On an initialised descriptor (one
is attached and its `irq` is not `0`) it makes exactly three calls, in this
order: `disable_irq_wake(sb->irq)`, `device_init_wakeup(false)`,
`gpio_free(sb->gpio)`; whatever the power-management state was, afterwards the
device is unmarked and the interrupt disarmed.  On a descriptor never
initialised (none attached, or `irq == 0`) it makes no call at all and leaves
the power-management state as it was, so that the never-initialised device
stays unmarked with no interrupt armed. -/
theorem remove_spec (drvdata : Option slide_button_desc) (pm : PMState) :
    (slide_button_remove drvdata).ret = 0 ∧
    (∀ sb, drvdata = some sb → sb.irq ≠ 0 →
      (slide_button_remove drvdata).calls =
        [Call.disable_irq_wake sb.irq, Call.device_init_wakeup false,
         Call.gpio_free sb.gpio] ∧
      (pm_after pm (slide_button_remove drvdata).calls).marked = false ∧
      (pm_after pm (slide_button_remove drvdata).calls).armed sb.irq = false) ∧
    ((drvdata = none ∨ ∃ sb, drvdata = some sb ∧ sb.irq = 0) →
      (slide_button_remove drvdata).calls = [] ∧
      pm_after pm (slide_button_remove drvdata).calls = pm ∧
      (pm_after PMState.fresh (slide_button_remove drvdata).calls).marked = false ∧
      ∀ i, (pm_after PMState.fresh (slide_button_remove drvdata).calls).armed i = false) := by
  refine ⟨?_, ?_, ?_⟩
  · unfold slide_button_remove
    split
    · rfl
    · split <;> rfl
  · intro sb hd hirq
    subst hd
    simp [slide_button_remove, hirq, pm_after, pm_step]
  · intro hd
    have hc : (slide_button_remove drvdata).calls = [] := by
      rcases hd with hd | ⟨sb, hd, hirq⟩
      · subst hd; rfl
      · subst hd; simp [slide_button_remove, hirq]
    rw [hc]
    exact ⟨rfl, rfl, rfl, fun _ => rfl⟩

/-- Witness for C8: detach on the descriptor left by the successful attach of
`sample_env` makes the three calls and leaves the device unmarked and
interrupt 42 disarmed; detach with no descriptor attached makes no call. -/
theorem remove_spec_witness :
    ((slide_button_remove (some sample_desc)).calls =
        [Call.disable_irq_wake 42, Call.device_init_wakeup false, Call.gpio_free 7] ∧
      (pm_after (pm_after PMState.fresh (slide_button_probe sample_env).calls)
        (slide_button_remove (some sample_desc)).calls).marked = false ∧
      (pm_after (pm_after PMState.fresh (slide_button_probe sample_env).calls)
        (slide_button_remove (some sample_desc)).calls).armed 42 = false) ∧
    (slide_button_remove none).calls = [] :=
  ⟨(remove_spec (some sample_desc)
      (pm_after PMState.fresh (slide_button_probe sample_env).calls)).2.1
      sample_desc rfl (by decide),
   ((remove_spec none PMState.fresh).2.2 (Or.inl rfl)).1⟩

/-- The 32-bit word stored by `u32_as_int` is the value that was written. -/
theorem u32_as_int_word (v : Nat) : u32_as_int v % 2 ^ 32 = ((v % 2 ^ 32 : Nat) : Int) := by
  unfold u32_as_int
  split <;> omega

/-- A `u32` below `2 ^ 31` reads back from the `int` field as itself. -/
theorem u32_as_int_small (v : Nat) (h : v < 2 ^ 31) : u32_as_int v = (v : Int) := by
  unfold u32_as_int
  have h1 : v % 2 ^ 32 = v := Nat.mod_eq_of_lt (by omega)
  rw [h1, if_pos h]

/-- C9: `slide_button_parse_dt` sets `debounce_interval` to exactly 15 when
`of_property_read_u32` returns non-zero, and to the supplied `u32` value when
it returns `0` (the field holds that 32-bit word, and reads as the same number
for every value below `2 ^ 31`).  What `of_property_read_u32` returns changes
neither the return value of `slide_button_parse_dt` nor the return value of
`slide_button_probe`: attach succeeds without the hint whenever it succeeds
with it, and then leaves `debounce_interval = 15`. -/
theorem parse_dt_debounce_default (e : Env) (sb : slide_button_desc) :
    (e.of_property_read_u32.1 ≠ 0 →
      (slide_button_parse_dt e sb).sb.debounce_interval = 15) ∧
    (e.of_property_read_u32.1 = 0 →
      (slide_button_parse_dt e sb).sb.debounce_interval = u32_as_int e.of_property_read_u32.2 ∧
      (slide_button_parse_dt e sb).sb.debounce_interval % 2 ^ 32 =
        ((e.of_property_read_u32.2 % 2 ^ 32 : Nat) : Int) ∧
      (e.of_property_read_u32.2 < 2 ^ 31 →
        (slide_button_parse_dt e sb).sb.debounce_interval = (e.of_property_read_u32.2 : Int))) ∧
    (∀ r : Int × Nat,
      (slide_button_parse_dt { e with of_property_read_u32 := r } sb).ret =
        (slide_button_parse_dt e sb).ret) ∧
    (∀ r : Int × Nat,
      (slide_button_probe { e with of_property_read_u32 := r }).ret =
        (slide_button_probe e).ret) ∧
    (∀ r : Int × Nat, (slide_button_probe e).ret = 0 → r.1 ≠ 0 →
      (slide_button_probe { e with of_property_read_u32 := r }).ret = 0 ∧
      ∃ d, (slide_button_probe { e with of_property_read_u32 := r }).drvdata = some d ∧
        d.debounce_interval = 15) := by
  refine ⟨?_, ?_, ?_, ?_, ?_⟩
  · intro hr
    rw [parse_dt_eq]
    simp [hr]
  · intro hr
    have hd : (slide_button_parse_dt e sb).sb.debounce_interval =
        u32_as_int e.of_property_read_u32.2 := by
      rw [parse_dt_eq]
      simp [hr]
    refine ⟨hd, ?_, ?_⟩
    · rw [hd]; exact u32_as_int_word _
    · intro hlt
      rw [hd]; exact u32_as_int_small _ hlt
  · intro r
    exact parse_dt_ret_indep e sb r
  · intro r
    exact probe_ret_indep e r
  · intro r h0 hr
    have h1 : (slide_button_probe { e with of_property_read_u32 := r }).ret = 0 := by
      rw [probe_ret_indep e r]; exact h0
    refine ⟨h1, ?_⟩
    have hs := (probe_success _ h1).2.2.2.2.2.2.2
    rw [hs]
    refine ⟨_, rfl, ?_⟩
    simp [hr]

/-- Witness for C9: in `sample_env` the hint cannot be read
(`of_property_read_u32` returns `-22`): the resolved value is 15 and attach
succeeds; with the hint readable as 40 the resolved value is 40 and the
return value of attach is the same. -/
theorem parse_dt_debounce_default_witness :
    (slide_button_parse_dt sample_env slide_button_desc.zero).sb.debounce_interval = 15 ∧
    (slide_button_parse_dt env_debounce_40 slide_button_desc.zero).sb.debounce_interval = 40 ∧
    (slide_button_probe sample_env).ret = 0 ∧
    (slide_button_probe env_debounce_40).ret = (slide_button_probe sample_env).ret :=
  ⟨(parse_dt_debounce_default sample_env slide_button_desc.zero).1 (by decide),
   ((parse_dt_debounce_default env_debounce_40 slide_button_desc.zero).2.1 rfl).2.2
     (by decide),
   rfl,
   (parse_dt_debounce_default sample_env slide_button_desc.zero).2.2.2.1 (0, 40)⟩

/-- With committed state Off, an invocation whose read is Off emits nothing
and leaves the state Off. -/
theorem handler_from_off_reads_off (line : Line) (sb : slide_button_desc)
    (hp : sb.prev_state = 0) (hl : (line sb.gpio 0 != 0) = false) :
    (slide_button_irq_trigger_handler line sb).calls = [] ∧
    (slide_button_irq_trigger_handler line sb).sb.prev_state = 0 := by
  rw [handler_first_read_eq line sb (by rw [hl, hp]; rfl)]
  exact ⟨rfl, hp⟩

/-- With committed state Off, an invocation during which the line reads the
level `s` emits the `KEY_SLIDE_BUTTON_ON` pair exactly when `s` is On, and
commits `s`. -/
theorem handler_from_off_stable (line : Line) (sb : slide_button_desc) (s : Bool)
    (hp : sb.prev_state = 0)
    (hline : ∀ k, k < (slide_button_irq_trigger_handler line sb).nread →
      (line sb.gpio k != 0) = s) :
    ((slide_button_irq_trigger_handler line sb).calls =
        [Call.input_report_key sb.input KEY_SLIDE_BUTTON_ON 1, Call.input_sync sb.input,
         Call.input_report_key sb.input KEY_SLIDE_BUTTON_ON 0, Call.input_sync sb.input]
      ↔ s = true) ∧
    (slide_button_irq_trigger_handler line sb).sb.prev_state = bool_to_int s := by
  have h0 := hline 0 (handler_nread_pos line sb)
  cases s with
  | false =>
    have hr := handler_first_read_eq line sb (by rw [h0, hp]; rfl)
    rw [hr]
    simp [bool_to_int, hp]
  | true =>
    have hne : bool_to_int (line sb.gpio 0 != 0) ≠ sb.prev_state := by
      rw [h0, hp]; decide
    have hr := handler_first_read_ne line sb hne
    have h1 := hline 1 (by rw [hr]; exact Nat.lt_succ_self 1)
    rw [hr]
    simp only [h0, h1]
    simp [bool_to_int]

/-- C10: after every successful attach `prev_state` is `0` (Off), whatever
the collaborators returned; attach is given no access to the level of the
line.  Consequently, in the first handler invocation after attach: when the
level read is Off nothing is emitted and the state stays Off; when the line
reads On during the invocation the `KEY_SLIDE_BUTTON_ON` pair is emitted and
On is committed; and for a line reading the level `s` during the invocation
the `KEY_SLIDE_BUTTON_ON` pair is emitted if and only if `s` is On. -/
theorem probe_success_initial_state (e : Env) (h : (slide_button_probe e).ret = 0) :
    ∃ sb, (slide_button_probe e).drvdata = some sb ∧ sb.prev_state = 0 ∧
      (∀ line : Line, (line sb.gpio 0 != 0) = false →
        (slide_button_irq_trigger_handler line sb).calls = [] ∧
        (slide_button_irq_trigger_handler line sb).sb.prev_state = 0) ∧
      (∀ (line : Line) (s : Bool),
        (∀ k, k < (slide_button_irq_trigger_handler line sb).nread →
          (line sb.gpio k != 0) = s) →
        ((slide_button_irq_trigger_handler line sb).calls =
            [Call.input_report_key sb.input KEY_SLIDE_BUTTON_ON 1, Call.input_sync sb.input,
             Call.input_report_key sb.input KEY_SLIDE_BUTTON_ON 0, Call.input_sync sb.input]
          ↔ s = true) ∧
        (slide_button_irq_trigger_handler line sb).sb.prev_state = bool_to_int s) := by
  have hs := (probe_success e h).2.2.2.2.2.2.2
  rw [hs]
  refine ⟨_, rfl, rfl, ?_, ?_⟩
  · intro line hl
    exact handler_from_off_reads_off line _ rfl hl
  · intro line s hline
    exact handler_from_off_stable line _ s rfl hline

/-- Witness for C10: attach in `sample_env` leaves `prev_state = 0`; a first
invocation on a low line emits nothing, one on a high line emits the
`KEY_SLIDE_BUTTON_ON` pair. -/
theorem probe_success_initial_state_witness :
    ∃ sb, (slide_button_probe sample_env).drvdata = some sb ∧ sb.prev_state = 0 ∧
      (slide_button_irq_trigger_handler line_low sb).calls = [] ∧
      (slide_button_irq_trigger_handler line_high sb).calls =
        [Call.input_report_key sb.input KEY_SLIDE_BUTTON_ON 1, Call.input_sync sb.input,
         Call.input_report_key sb.input KEY_SLIDE_BUTTON_ON 0, Call.input_sync sb.input] := by
  obtain ⟨sb, hd, hp, hoff, hon⟩ := probe_success_initial_state sample_env rfl
  exact ⟨sb, hd, hp, (hoff line_low rfl).1, ((hon line_high true (fun _ _ => rfl)).1).2 rfl⟩

/-! ## Theorems: detach after a failing attach -/
/-- The calls of `slide_button_probe` as a function of what the collaborators
return. -/
theorem probe_calls_eq (e : Env) :
    (slide_button_probe e).calls =
      if e.devm_kzalloc = false then []
      else if e.gpio_is_valid e.of_get_named_gpio_flags = true then
        if e.gpio_request e.of_get_named_gpio_flags < 0 then
          [Call.gpio_request e.of_get_named_gpio_flags]
        else if e.devm_input_allocate_device = 0 then
          [Call.gpio_request e.of_get_named_gpio_flags]
        else if e.input_register_device e.devm_input_allocate_device ≠ 0 then
          [Call.gpio_request e.of_get_named_gpio_flags,
           Call.input_register_device e.devm_input_allocate_device probe_input_dev,
           Call.input_unregister_device e.devm_input_allocate_device]
        else if e.gpio_to_irq e.of_get_named_gpio_flags < 0 then
          [Call.gpio_request e.of_get_named_gpio_flags,
           Call.input_register_device e.devm_input_allocate_device probe_input_dev,
           Call.input_unregister_device e.devm_input_allocate_device]
        else if e.devm_request_threaded_irq (e.gpio_to_irq e.of_get_named_gpio_flags) ≠ 0 then
          [Call.gpio_request e.of_get_named_gpio_flags,
           Call.input_register_device e.devm_input_allocate_device probe_input_dev,
           Call.devm_request_threaded_irq (e.gpio_to_irq e.of_get_named_gpio_flags),
           Call.disable_irq_wake (e.gpio_to_irq e.of_get_named_gpio_flags),
           Call.free_irq (e.gpio_to_irq e.of_get_named_gpio_flags),
           Call.input_unregister_device e.devm_input_allocate_device]
        else
          [Call.gpio_request e.of_get_named_gpio_flags,
           Call.input_register_device e.devm_input_allocate_device probe_input_dev,
           Call.devm_request_threaded_irq (e.gpio_to_irq e.of_get_named_gpio_flags),
           Call.device_init_wakeup e.of_property_read_bool,
           Call.enable_irq_wake (e.gpio_to_irq e.of_get_named_gpio_flags)]
      else [] := by
  unfold slide_button_probe
  rw [parse_dt_eq]
  simp only [slide_button_desc.zero, err_free_dev, err_free_irq, apply_ite ProbeResult.calls]
  split_ifs <;> first | rfl | (exfalso; omega)

/-- On every failing attach the output-event channel is not left registered:
either it was never registered successfully or it has been unregistered. -/
theorem probe_failure_channel_not_registered (e : Env) (h : (slide_button_probe e).ret ≠ 0) :
    channel_registered e.input_register_device e.devm_input_allocate_device
      (slide_button_probe e).calls false = false := by
  rw [probe_ret_eq] at h
  rw [probe_calls_eq]
  split_ifs at h ⊢ <;> simp_all [channel_registered]

/-- A call that neither marks the device wake-capable nor arms an interrupt
keeps an unmarked device with no armed interrupt in that state. -/
theorem pm_step_keeps_quiet (pm : PMState) (c : Call)
    (hm : pm.marked = false) (ha : ∀ i, pm.armed i = false)
    (h1 : ∀ i, c ≠ Call.enable_irq_wake i) (h2 : c ≠ Call.device_init_wakeup true) :
    (pm_step pm c).marked = false ∧ ∀ i, (pm_step pm c).armed i = false := by
  cases c with
  | device_init_wakeup b =>
    cases b with
    | true => exact absurd rfl h2
    | false => exact ⟨rfl, ha⟩
  | enable_irq_wake i => exact absurd rfl (h1 i)
  | disable_irq_wake i =>
    refine ⟨hm, fun j => ?_⟩
    simp only [pm_step]
    split
    · rfl
    · exact ha j
  | _ => exact ⟨hm, ha⟩

/-- A list of calls none of which marks the device wake-capable or arms an
interrupt keeps an unmarked device with no armed interrupt in that state. -/
theorem pm_after_keeps_quiet (cs : List Call) (pm : PMState)
    (hm : pm.marked = false) (ha : ∀ i, pm.armed i = false)
    (h1 : ∀ c ∈ cs, ∀ i, c ≠ Call.enable_irq_wake i)
    (h2 : ∀ c ∈ cs, c ≠ Call.device_init_wakeup true) :
    (pm_after pm cs).marked = false ∧ ∀ i, (pm_after pm cs).armed i = false := by
  induction cs generalizing pm with
  | nil => exact ⟨hm, ha⟩
  | cons c rest ih =>
    have hstep := pm_step_keeps_quiet pm c hm ha (h1 c (List.mem_cons_self c rest))
      (h2 c (List.mem_cons_self c rest))
    exact ih (pm_step pm c) hstep.1 hstep.2
      (fun d hd => h1 d (List.mem_cons_of_mem c hd))
      (fun d hd => h2 d (List.mem_cons_of_mem c hd))

/-- No call of `slide_button_remove` marks the device or arms an interrupt. -/
theorem remove_calls_quiet (d : Option slide_button_desc) :
    (∀ c ∈ (slide_button_remove d).calls, ∀ i, c ≠ Call.enable_irq_wake i) ∧
    (∀ c ∈ (slide_button_remove d).calls, c ≠ Call.device_init_wakeup true) := by
  unfold slide_button_remove
  split
  · simp
  · split <;> simp

/-- No call of a failing `slide_button_probe` marks the device or arms an
interrupt. -/
theorem failed_probe_calls_quiet (e : Env) (h : (slide_button_probe e).ret ≠ 0) :
    (∀ c ∈ (slide_button_probe e).calls, ∀ i, c ≠ Call.enable_irq_wake i) ∧
    (∀ c ∈ (slide_button_probe e).calls, c ≠ Call.device_init_wakeup true) := by
  rw [probe_ret_eq] at h
  rw [probe_calls_eq]
  split_ifs at h ⊢ <;> simp at h ⊢

/-- Detach called right after a failing attach, on the driver data that
attach left: starting from a device on which nothing was set up, the device
ends unmarked and no interrupt is armed as a wake source. -/
theorem remove_after_failed_probe (e : Env) (h : (slide_button_probe e).ret ≠ 0) :
    (pm_after (pm_after PMState.fresh (slide_button_probe e).calls)
      (slide_button_remove (slide_button_probe e).drvdata).calls).marked = false ∧
    ∀ i, (pm_after (pm_after PMState.fresh (slide_button_probe e).calls)
      (slide_button_remove (slide_button_probe e).drvdata).calls).armed i = false := by
  have hp := failed_probe_calls_quiet e h
  have h1 := pm_after_keeps_quiet (slide_button_probe e).calls PMState.fresh rfl
    (fun _ => rfl) hp.1 hp.2
  have hr := remove_calls_quiet (slide_button_probe e).drvdata
  exact pm_after_keeps_quiet _ _ h1.1 h1.2 hr.1 hr.2

end SlideButton
